import Mathlib

/-!
Verification development for the `ticket` workflow tool (src/ticket.py).

The tool multiplexes work on several tickets inside one git working copy:
each ticket maps to a branch and a screen session named "#<id>", and
uncommitted changes are parked on the git stash when switching tickets.

Shallow embedding used here:

* All durable state lives in the external VCS and session host; we model it
  as an explicit record `St` (current branch, branch list, stash list
  newest-first, uncommitted working-copy changes, sessions, plus the
  operator working directory and a trace of every shell command issued).
* Every shell command the source issues is a constructor of `Cmd`; its exact
  command-line text (the string the Python code interpolates) is `Cmd.text`,
  and its effect and exit code are `runCmd`.  The behaviour of the external
  programs is modelled from their documented interfaces as the source relies
  on them: `git stash` with nothing to save exits 0; the stash-list query
  pipeline exits 0 and prints the newest matching ref or nothing;
  `git stash pop <ref> && git reset HEAD .` exits 1 both on the success path
  (the historical exit status of `git reset HEAD .` when unstaged changes
  remain, which is why the source declares expected code 1) and on a
  conflicting pop (the pop exits 1 and `&&` short-circuits);
  `screen -S <name> -X quit` exits 1 when no such session exists;
  `git branch -D` exits 1 when the branch is absent or checked out.
* `git svn rebase` talks to an external mirror, so its exit code is a
  parameter of the environment `Env`; whether applying a given stash
  change-set conflicts is the environment parameter `popConflict`.
* Python exceptions (`ShellError`, `sys.exit`) are modelled with `Except`;
  the error carries the world state at the moment of the abort so that
  "which commands had been issued" is observable.  `execlp` (the tail
  transfer into screen) is modelled as the returned `Attach` value, the
  final irrevocable action the caller would perform.
* Stash refs are strings "stash@\x7bi\x7d" naming the position `i` in the
  stash list; the model passes the position `i` around and renders the
  string with `stashRef` wherever the source handles the ref text.
-/

namespace Ticket

/-- Exception raised by `shell` when a command exits with an unexpected code;
carries the command text, the actual exit code and the combined output,
mirroring class ShellError of the source. -/
structure ShellError where
  command : String
  returnCode : Nat
  output : String
deriving Repr, DecidableEq

/-- Model of the function shell(command, expectedReturnCode=0) of the source:
`run` is the (exit code, combined stdout+stderr output) pair the external
command produced; the result is returned when the exit code equals the
expected one and a ShellError is raised otherwise. -/
def shell (command : String) (run : Nat × String) (expectedReturnCode : Nat := 0) :
    Except ShellError (Nat × String) :=
  if run.1 ≠ expectedReturnCode then
    Except.error ⟨command, run.1, run.2⟩
  else
    Except.ok (run.1, run.2)

/-- One entry of the git stash list: the branch that was checked out when it
was created (git records it in the "WIP on <branch>:" line) and an opaque
identifier of the saved change-set. -/
structure StashEntry where
  branch : String
  changes : Nat
deriving Repr, DecidableEq

/-- Branch/session naming convention of the tool: literal # followed by the
decimal ticket id. -/
def branchName (ticket : Nat) : String := "#" ++ toString ticket

/-- The ref text git prints for the stash at position i of the stash list. -/
def stashRef (i : Nat) : String := "stash@\x7b" ++ toString i ++ "\x7d"

/-- Position of the newest stash entry created on the branch of `ticket`
(the stash list is ordered newest first, so this is the first match), or
none when no entry matches.  This is what the pipeline
git stash list | grep | head -1 | sed of the source computes. -/
def firstStashIdx (ticket : Nat) : List StashEntry → Option Nat
  | [] => none
  | e :: rest =>
      if e.branch = branchName ticket then some 0
      else (firstStashIdx ticket rest).map (· + 1)

/-- Number of stash entries created on the branch of `ticket`. -/
def countMatches (ticket : Nat) (l : List StashEntry) : Nat :=
  l.countP (fun e => e.branch == branchName ticket)

/-- The world state the tool manipulates: operator working directory and
home, the git state (current branch, branches, stash list newest-first,
uncommitted working-copy changes and whether they are staged, conflict
markers), the screen sessions, and the trace of shell commands issued. -/
structure St where
  cwd : String
  home : String
  currentBranch : String
  branches : List String
  stashes : List StashEntry
  workChanges : Option Nat
  workStaged : Bool
  conflicted : Bool
  sessions : List String
  trace : List String
deriving Repr, DecidableEq

/-- Behaviour of the external collaborators the model does not decide
itself: the exit code of git svn rebase (the upstream sync), and whether
applying a given saved change-set to the working copy conflicts. -/
structure Env where
  svnRebaseCode : Nat
  popConflict : Nat → Bool

/-- The shell commands the source issues, one constructor per call site. -/
inductive Cmd where
  | addAll
  | stashPush
  | checkoutMaster
  | svnRebase
  | checkoutB (ticket : Nat)
  | stashQuery (ticket : Nat)
  | stashPopReset (idx : Nat)
  | branchQuery
  | screenQuit (ticket : Nat)
  | branchDelete (ticket : Nat)
  | stashDrop (idx : Nat)
deriving Repr, DecidableEq

/-- The exact command text the source interpolates for each call site. -/
def Cmd.text : Cmd → String
  | .addAll => "git add ."
  | .stashPush => "git stash"
  | .checkoutMaster => "git checkout master"
  | .svnRebase => "git svn rebase"
  | .checkoutB t => "git checkout -B " ++ "\x27" ++ branchName t ++ "\x27"
  | .stashQuery t =>
      "git stash list | grep " ++ "\x27" ++ "WIP on " ++ branchName t ++ ":" ++ "\x27"
        ++ " | head -1 | sed " ++ "\x27" ++ "s/\x7d:.*/\x7d/" ++ "\x27"
  | .stashPopReset i => "git stash pop " ++ stashRef i ++ " && git reset HEAD ."
  | .branchQuery => "git branch | grep " ++ "\x27" ++ "*" ++ "\x27" ++ " | sed " ++ "\x27" ++ "s/\\* //" ++ "\x27"
  | .screenQuit t => "screen -S " ++ "\x27" ++ branchName t ++ "\x27" ++ " -X quit"
  | .branchDelete t => "git branch -D " ++ "\x27" ++ branchName t ++ "\x27"
  | .stashDrop i => "git stash drop " ++ stashRef i

/-- Effect and (exit code, output) of each command against the world state. -/
def runCmd (env : Env) (s : St) : Cmd → St × Nat × String
  | .addAll =>
      match s.workChanges with
      | some _ => ({s with workStaged := true}, 0, "")
      | none => (s, 0, "")
  | .stashPush =>
      match s.workChanges with
      | some c =>
          ({s with stashes := ⟨s.currentBranch, c⟩ :: s.stashes,
                   workChanges := none, workStaged := false},
           0, "Saved working directory and index state")
      | none => (s, 0, "No local changes to save")
  | .checkoutMaster => ({s with currentBranch := "master"}, 0, "Switched to branch master")
  | .svnRebase =>
      (s, env.svnRebaseCode,
       if env.svnRebaseCode = 0 then "Current branch master is up to date." else "git svn rebase failed")
  | .checkoutB t =>
      ({s with currentBranch := branchName t,
               branches := if branchName t ∈ s.branches then s.branches else branchName t :: s.branches},
       0, "Switched to branch " ++ branchName t)
  | .stashQuery t =>
      (s, 0, match firstStashIdx t s.stashes with
             | some i => stashRef i
             | none => "")
  | .stashPopReset i =>
      match s.stashes[i]? with
      | some e =>
          if env.popConflict e.changes then
            ({s with conflicted := true, workChanges := some e.changes, workStaged := true},
             1, "CONFLICT: merge conflict while applying the stash")
          else
            ({s with stashes := s.stashes.eraseIdx i,
                     workChanges := some e.changes, workStaged := false},
             1, "Unstaged changes after reset")
      | none => (s, 128, "fatal: not a valid reference")
  | .branchQuery => (s, 0, s.currentBranch)
  | .screenQuit t =>
      if branchName t ∈ s.sessions then
        ({s with sessions := s.sessions.erase (branchName t)}, 0, "")
      else (s, 1, "No screen session found.")
  | .branchDelete t =>
      if branchName t ∈ s.branches ∧ branchName t ≠ s.currentBranch then
        ({s with branches := s.branches.erase (branchName t)}, 0, "Deleted branch " ++ branchName t)
      else (s, 1, "error: branch not found or checked out")
  | .stashDrop i =>
      match s.stashes[i]? with
      | some _ => ({s with stashes := s.stashes.eraseIdx i}, 0, "Dropped stash")
      | none => (s, 1, "error: not a valid reference")

/-- Record a command in the trace of issued commands. -/
def pushCmdTrace (s : St) (c : Cmd) : St :=
  {s with trace := s.trace ++ [c.text]}

/-- A shell call at the state level: runs the command against the world,
records it in the trace, and checks the exit code with `shell`; an
unexpected code raises a ShellError carrying the world state reached. -/
def shellC (env : Env) (s : St) (c : Cmd) (expected : Nat := 0) :
    Except (ShellError × St) (St × Nat × String) :=
  let r := runCmd env s c
  let s2 := pushCmdTrace r.1 c
  match shell c.text (r.2.1, r.2.2) expected with
  | Except.ok v => Except.ok (s2, v.1, v.2)
  | Except.error err => Except.error (err, s2)

/-- One step of the generator stash_list(ticket) of the source: re-run the
stash-list query pipeline against the current state and yield the newest
matching ref, or end the generator (StopIteration) when the output is empty.
The yielded ref stash@\x7bi\x7d is represented by its position i. -/
def stash_list_next (env : Env) (ticket : Nat) (s : St) :
    Except (ShellError × St) (St × Option Nat) := do
  let (s1, _, _) ← shellC env s (Cmd.stashQuery ticket) 0
  return (s1, firstStashIdx ticket s1.stashes)

/-- The sequence of refs the generator stash_list yields over a stash state
that never changes between steps: every iteration re-runs the same query
against the same state, so each step yields the same newest matching ref as
the first, and when nothing matches the generator ends at once and every
position is empty.  Element n of the yielded sequence.
The lemma stash_list_next_eq derives the step behaviour this unrolls. -/
def stash_list_fixed (ticket : Nat) (stashes : List StashEntry) (_n : Nat) : Option String :=
  (firstStashIdx ticket stashes).map stashRef

/-- Exceptional terminations of a lifecycle operation: an uncaught
ShellError, or sys.exit(code) after printing a message to the operator. -/
inductive Abort where
  | shellErr : ShellError → Abort
  | exited : Nat → String → Abort
deriving Repr, DecidableEq

/-- Lift a computation raising only ShellError into one that can also exit. -/
def liftSh {α : Type} : Except (ShellError × St) α → Except (Abort × St) α
  | Except.ok a => Except.ok a
  | Except.error (e, st) => Except.error (Abort.shellErr e, st)

/-- How execlp is invoked for the final screen attach: create-or-reattach
(screen -DRR, used by start) or reattach only (screen -r, used by resume). -/
inductive AttachMode where
  | createOrReattach
  | reattachOnly
deriving Repr, DecidableEq

/-- The tail transfer into the session host that ends start and resume:
the process image is replaced by screen attaching the named session.
Modelled as the value the operation returns, the final irrevocable action. -/
structure Attach where
  mode : AttachMode
  session : String
deriving Repr, DecidableEq

/-- The managed workspace root the source requires for start:
the string /mnt/ebs + expanduser of ~/Code. -/
def workspaceRoot (home : String) : String := "/mnt/ebs" ++ home ++ "/Code"

/-- Model of the function stop() of the source: stage all working-copy
changes, stash them, switch to master, update master from svn. -/
def stop (env : Env) (s0 : St) : Except (ShellError × St) St := do
  let (s1, _, _) ← shellC env s0 Cmd.addAll 0
  let (s2, _, _) ← shellC env s1 Cmd.stashPush 0
  let (s3, _, _) ← shellC env s2 Cmd.checkoutMaster 0
  let (s4, _, _) ← shellC env s3 Cmd.svnRebase 0
  return s4

/-- The state stop() leaves behind, stated directly: branch master, the
working-copy changes (if any) moved to the top of the stash tagged with the
branch they were on, all four commands traced.  The lemma stop_char proves
stop computes exactly this when git svn rebase succeeds. -/
def stashesAfterStop (s : St) : List StashEntry :=
  match s.workChanges with
  | some c => ⟨s.currentBranch, c⟩ :: s.stashes
  | none => s.stashes

/-- Explicit form of the successful result of stop(); see stashesAfterStop. -/
def stopPure (s : St) : St :=
  { s with
    currentBranch := "master"
    stashes := stashesAfterStop s
    workChanges := none
    workStaged := if s.workChanges.isSome then false else s.workStaged
    trace := s.trace ++ [Cmd.addAll.text, Cmd.stashPush.text, Cmd.checkoutMaster.text, Cmd.svnRebase.text] }

/-- Model of the function start(ticket) of the source: require the managed
workspace root as working directory (else print and exit(1)), park the
previously active ticket with stop(), create-or-switch to the ticket branch,
pop the newest stash created on that branch if one exists (declared expected
exit code 1; a missing stash is StopIteration, caught and ignored), then
replace the process with screen -DRR on the ticket session. -/
def start (env : Env) (ticket : Nat) (s : St) : Except (Abort × St) (St × Attach) :=
  if s.cwd ≠ workspaceRoot s.home then
    Except.error (Abort.exited 1 "You need to run this in ~/Code !", s)
  else do
    let s1 ← liftSh (stop env s)
    let (s2, _, _) ← liftSh (shellC env s1 (Cmd.checkoutB ticket) 0)
    let (s3, o) ← liftSh (stash_list_next env ticket s2)
    let s4 ← (match o with
      | none => pure s3
      | some i => do
          let (s4, _, _) ← liftSh (shellC env s3 (Cmd.stashPopReset i) 1)
          pure s4)
    return (s4, ⟨AttachMode.createOrReattach, branchName ticket⟩)

/-- Model of the function resume() of the source: read the currently
checked-out branch from git; on master, print and exit(2); otherwise
replace the process with screen -r on the session named by the branch. -/
def resume (env : Env) (s : St) : Except (Abort × St) (St × Attach) := do
  let (s1, _, screen) ← liftSh (shellC env s Cmd.branchQuery 0)
  if screen = "master" then
    Except.error (Abort.exited 2 "You were last seen on master, not a ticket branch!", s1)
  else
    return (s1, ⟨AttachMode.reattachOnly, screen⟩)

/-- The loop for stash in stash_list(ticket): shell(git stash drop ...) of
kill, unrolled on a step counter.  The counter is initialised by
drainStashes to the number of matching stash entries, which the invariant
proved in drainGo_spec shows is exactly the number of iterations the source
loop performs (each drop removes the one matching entry the step yielded);
at counter 0 the generator step yields nothing and the loop ends, so the
counter never cuts the loop short. -/
def drainGo (env : Env) (ticket : Nat) : Nat → St → Except (ShellError × St) St
  | 0, s => do
      let (s1, _) ← stash_list_next env ticket s
      return s1
  | n + 1, s => do
      let (s1, o) ← stash_list_next env ticket s
      match o with
      | none => return s1
      | some i => do
          let (s2, _, _) ← shellC env s1 (Cmd.stashDrop i) 0
          drainGo env ticket n s2

/-- Drain the whole stash_list sequence for a ticket, dropping every
yielded stash: the for-loop at the end of kill. -/
def drainStashes (env : Env) (ticket : Nat) (s : St) : Except (ShellError × St) St :=
  drainGo env ticket (countMatches ticket s.stashes) s

/-- Model of the function kill(ticket) of the source: stop(), terminate the
ticket session, force-delete the ticket branch, then drop every stash
created on the ticket branch. -/
def kill (env : Env) (ticket : Nat) (s : St) : Except (ShellError × St) St := do
  let s1 ← stop env s
  let (s2, _, _) ← shellC env s1 (Cmd.screenQuit ticket) 0
  let (s3, _, _) ← shellC env s2 (Cmd.branchDelete ticket) 0
  drainStashes env ticket s3

/-- Exit status of the whole process as the __main__ block of the source
produces it: a normal return exits 0, sys.exit(c) exits c, and an uncaught
ShellError terminates the interpreter with its fixed uncaught-exception
status 1 (the source has no try/except around the dispatched function). -/
def processExit {α : Type} : Except (Abort × St) α → Nat
  | Except.ok _ => 0
  | Except.error (Abort.exited c _, _) => c
  | Except.error (Abort.shellErr _, _) => 1

/-- Value of a successful computation, with a fallback for the error case. -/
def okOr {ε α : Type} (r : Except ε α) (d : α) : α :=
  match r with
  | Except.ok a => a
  | Except.error _ => d

instance {ε α : Type} [DecidableEq ε] [DecidableEq α] : DecidableEq (Except ε α) := fun x y =>
  match x, y with
  | Except.ok a, Except.ok b => decidable_of_iff (a = b) (by simp)
  | Except.error a, Except.error b => decidable_of_iff (a = b) (by simp)
  | Except.ok _, Except.error _ => isFalse (by simp)
  | Except.error _, Except.ok _ => isFalse (by simp)

/-! Concrete inputs used to instantiate the theorems below. -/

/-- Environment in which every external collaborator behaves normally. -/
def envN : Env := ⟨0, fun _ => false⟩

/-- Environment in which applying any stash change-set conflicts. -/
def envC : Env := ⟨0, fun _ => true⟩

/-- Environment in which git svn rebase fails with exit code 3. -/
def envR : Env := ⟨3, fun _ => false⟩

/-- A world state in the managed workspace root, with the given branch
checked out, branches, stash list, working-copy changes and sessions. -/
def mkSt (branch : String) (branches : List String) (stashes : List StashEntry)
    (work : Option Nat) (sessions : List String) : St :=
  { cwd := workspaceRoot "/home/op", home := "/home/op", currentBranch := branch,
    branches := branches, stashes := stashes, workChanges := work, workStaged := false,
    conflicted := false, sessions := sessions, trace := [] }

/-- Parked on master with a clean working copy. -/
def sTrunk : St := mkSt "master" ["master"] [] none []

/-- Working on the branch of ticket 4, its session running. -/
def sTicket : St := mkSt (branchName 4) ["master", branchName 4] [] none [branchName 4]

/-- Active on the branch of ticket 5 with uncommitted change-set 7. -/
def sC1 : St := mkSt (branchName 5) ["master", branchName 5] [] (some 7) []

/-- Parked, one snapshot for ticket 5 on the stash list. -/
def sC2 : St := mkSt "master" ["master", branchName 5] [⟨branchName 5, 7⟩] none []

/-- Parked, three snapshots on the stash list, two of them for ticket 5,
the session of ticket 5 running. -/
def sC4 : St :=
  mkSt "master" ["master", branchName 5]
    [⟨branchName 5, 1⟩, ⟨branchName 3, 2⟩, ⟨branchName 5, 4⟩] none [branchName 5]

/-- Parked, a snapshot and a branch for ticket 9 but no running session. -/
def sC7 : St := mkSt "master" ["master", branchName 9] [⟨branchName 9, 2⟩] none []

/-- Active on the branch of ticket 2 with uncommitted change-set 5. -/
def sC8 : St := mkSt (branchName 2) ["master", branchName 2] [] (some 5) []

/-- A state whose working directory is not the managed workspace root. -/
def sBadDir : St := {mkSt "master" ["master"] [] none [] with cwd := "/somewhere/else"}

/-- Active on the branch of ticket 6 with uncommitted change-set 9. -/
def sStopW : St := mkSt (branchName 6) ["master", branchName 6] [] (some 9) []

/-- The session of ticket 4 is running but its branch does not exist. -/
def sTicketNoBranch : St := mkSt "master" ["master"] [] none [branchName 4]

/-- The state reached inside start after the initial stop() and the
create-or-switch to the ticket branch. -/
def afterCheckout (t : Nat) (s : St) : St :=
  pushCmdTrace {stopPure s with
    currentBranch := branchName t,
    branches := if branchName t ∈ (stopPure s).branches then (stopPure s).branches
                else branchName t :: (stopPure s).branches} (Cmd.checkoutB t)

/-! Helper lemmas about the stash search. -/

theorem firstStashIdx_none_iff (t : Nat) (l : List StashEntry) :
    firstStashIdx t l = none ↔ ∀ e ∈ l, e.branch ≠ branchName t := by
  induction l with
  | nil => simp [firstStashIdx]
  | cons e rest ih =>
      by_cases h : e.branch = branchName t
      · simp [firstStashIdx, h]
      · simp only [firstStashIdx, if_neg h, Option.map_eq_none', ih, List.mem_cons]
        constructor
        · rintro hrest e' (rfl | he') <;> [exact h; exact hrest e' he']
        · intro hall e' he'; exact hall e' (Or.inr he')

theorem firstStashIdx_spec (t : Nat) (l : List StashEntry) (i : Nat)
    (h : firstStashIdx t l = some i) :
    ∃ e, l[i]? = some e ∧ e.branch = branchName t ∧
      ∀ j, j < i → ∀ e', l[j]? = some e' → e'.branch ≠ branchName t := by
  induction l generalizing i with
  | nil => simp [firstStashIdx] at h
  | cons e rest ih =>
      by_cases he : e.branch = branchName t
      · simp only [firstStashIdx, if_pos he, Option.some.injEq] at h
        subst h
        exact ⟨e, by simp, he, fun j hj => absurd hj (Nat.not_lt_zero j)⟩
      · simp only [firstStashIdx, if_neg he] at h
        cases hr : firstStashIdx t rest with
        | none => rw [hr] at h; simp at h
        | some i0 =>
            rw [hr] at h
            simp only [Option.map_some', Option.some.injEq] at h
            subst h
            obtain ⟨e0, he0, hb0, hlt⟩ := ih i0 hr
            refine ⟨e0, by simpa using he0, hb0, ?_⟩
            intro j hj e' he'
            cases j with
            | zero => simp at he'; subst he'; exact he
            | succ j0 =>
                have : j0 < i0 := by omega
                exact hlt j0 this e' (by simpa using he')

theorem countMatches_eq_zero (t : Nat) (l : List StashEntry) :
    countMatches t l = 0 ↔ firstStashIdx t l = none := by
  induction l with
  | nil => simp [countMatches, firstStashIdx]
  | cons e rest ih =>
      by_cases h : e.branch = branchName t
      · simp [countMatches, firstStashIdx, h, List.countP_cons]
      · simp only [countMatches, firstStashIdx, if_neg h, List.countP_cons] at *
        simp only [beq_iff_eq, h, if_false, Nat.add_zero, ih, Option.map_eq_none']

theorem countMatches_eraseIdx (t : Nat) (l : List StashEntry) (i : Nat)
    (h : firstStashIdx t l = some i) :
    countMatches t (l.eraseIdx i) + 1 = countMatches t l := by
  induction l generalizing i with
  | nil => simp [firstStashIdx] at h
  | cons e rest ih =>
      by_cases he : e.branch = branchName t
      · simp only [firstStashIdx, if_pos he, Option.some.injEq] at h
        subst h
        simp [countMatches, List.countP_cons, he]
      · simp only [firstStashIdx, if_neg he] at h
        cases hr : firstStashIdx t rest with
        | none => rw [hr] at h; simp at h
        | some i0 =>
            rw [hr] at h
            simp only [Option.map_some', Option.some.injEq] at h
            subst h
            have := ih i0 hr
            simp only [List.eraseIdx_cons_succ, countMatches, List.countP_cons, beq_iff_eq,
              he, if_false, Nat.add_zero] at *
            omega

theorem filter_eraseIdx_first (t : Nat) (l : List StashEntry) (i : Nat)
    (h : firstStashIdx t l = some i) :
    (l.eraseIdx i).filter (fun e => !(e.branch == branchName t))
      = l.filter (fun e => !(e.branch == branchName t)) := by
  induction l generalizing i with
  | nil => simp [firstStashIdx] at h
  | cons e rest ih =>
      by_cases he : e.branch = branchName t
      · simp only [firstStashIdx, if_pos he, Option.some.injEq] at h
        subst h
        simp [List.filter_cons, he]
      · simp only [firstStashIdx, if_neg he] at h
        cases hr : firstStashIdx t rest with
        | none => rw [hr] at h; simp at h
        | some i0 =>
            rw [hr] at h
            simp only [Option.map_some', Option.some.injEq] at h
            subst h
            simp [List.filter_cons, he, ih i0 hr]

theorem filter_of_no_match (t : Nat) (l : List StashEntry)
    (h : firstStashIdx t l = none) :
    l.filter (fun e => !(e.branch == branchName t)) = l := by
  rw [firstStashIdx_none_iff] at h
  refine List.filter_eq_self.2 (fun e he => ?_)
  simpa using h e he

/-! Characterizations of the lifecycle building blocks. -/

theorem stop_char (env : Env) (s : St) :
    stop env s = if env.svnRebaseCode = 0
      then Except.ok (stopPure s)
      else Except.error
        (⟨Cmd.svnRebase.text, env.svnRebaseCode, "git svn rebase failed"⟩, stopPure s) := by
  rcases hw : s.workChanges with _ | c <;>
    by_cases hr : env.svnRebaseCode = 0 <;>
      simp [stop, shellC, runCmd, shell, pushCmdTrace, stopPure, stashesAfterStop, hw, hr,
        Bind.bind, Except.bind, pure, Except.pure, List.append_assoc]

theorem stash_list_next_eq (env : Env) (t : Nat) (s : St) :
    stash_list_next env t s
      = Except.ok (pushCmdTrace s (Cmd.stashQuery t), firstStashIdx t s.stashes) := by
  simp [stash_list_next, shellC, runCmd, shell, pushCmdTrace,
    Bind.bind, Except.bind, pure, Except.pure]

theorem drainGo_spec (env : Env) (t : Nat) :
    ∀ (n : Nat) (s : St), n = countMatches t s.stashes →
    ∃ tr, drainGo env t n s
      = Except.ok {s with stashes := s.stashes.filter (fun e => !(e.branch == branchName t)),
                          trace := s.trace ++ tr} := by
  intro n
  induction n with
  | zero =>
      intro s hn
      have hidx : firstStashIdx t s.stashes = none := (countMatches_eq_zero t s.stashes).1 hn.symm
      refine ⟨[(Cmd.stashQuery t).text], ?_⟩
      simp [drainGo, stash_list_next_eq, pushCmdTrace, Bind.bind, Except.bind, pure, Except.pure,
        filter_of_no_match t _ hidx]
  | succ n ih =>
      intro s hn
      cases hidx : firstStashIdx t s.stashes with
      | none =>
          have h0 := (countMatches_eq_zero t s.stashes).2 hidx
          omega
      | some i =>
          obtain ⟨e, he, hb, _⟩ := firstStashIdx_spec t s.stashes i hidx
          have hn2 : n = countMatches t (s.stashes.eraseIdx i) := by
            have := countMatches_eraseIdx t s.stashes i hidx
            omega
          obtain ⟨tr, htr⟩ :=
            ih (pushCmdTrace {pushCmdTrace s (Cmd.stashQuery t) with
                  stashes := s.stashes.eraseIdx i} (Cmd.stashDrop i))
              (by simpa [pushCmdTrace] using hn2)
          refine ⟨(Cmd.stashQuery t).text :: (Cmd.stashDrop i).text :: tr, ?_⟩
          simp only [drainGo, stash_list_next_eq, hidx, Bind.bind, Except.bind, pushCmdTrace,
            shellC, runCmd, shell, he]
          simp only [pushCmdTrace] at htr
          simp [List.append_assoc] at htr
          simp [htr, filter_eraseIdx_first t s.stashes i hidx, List.append_assoc]

theorem drainStashes_spec (env : Env) (t : Nat) (s : St) :
    ∃ tr, drainStashes env t s
      = Except.ok {s with stashes := s.stashes.filter (fun e => !(e.branch == branchName t)),
                          trace := s.trace ++ tr} :=
  drainGo_spec env t (countMatches t s.stashes) s rfl

@[simp] theorem pushCmdTrace_cwd (s : St) (c : Cmd) : (pushCmdTrace s c).cwd = s.cwd := rfl

@[simp] theorem pushCmdTrace_home (s : St) (c : Cmd) : (pushCmdTrace s c).home = s.home := rfl

@[simp] theorem pushCmdTrace_currentBranch (s : St) (c : Cmd) :
    (pushCmdTrace s c).currentBranch = s.currentBranch := rfl

@[simp] theorem pushCmdTrace_branches (s : St) (c : Cmd) :
    (pushCmdTrace s c).branches = s.branches := rfl

@[simp] theorem pushCmdTrace_stashes (s : St) (c : Cmd) :
    (pushCmdTrace s c).stashes = s.stashes := rfl

@[simp] theorem pushCmdTrace_workChanges (s : St) (c : Cmd) :
    (pushCmdTrace s c).workChanges = s.workChanges := rfl

@[simp] theorem pushCmdTrace_workStaged (s : St) (c : Cmd) :
    (pushCmdTrace s c).workStaged = s.workStaged := rfl

@[simp] theorem pushCmdTrace_conflicted (s : St) (c : Cmd) :
    (pushCmdTrace s c).conflicted = s.conflicted := rfl

@[simp] theorem pushCmdTrace_sessions (s : St) (c : Cmd) :
    (pushCmdTrace s c).sessions = s.sessions := rfl

@[simp] theorem pushCmdTrace_trace (s : St) (c : Cmd) :
    (pushCmdTrace s c).trace = s.trace ++ [c.text] := rfl

@[simp] theorem stopPure_cwd (s : St) : (stopPure s).cwd = s.cwd := rfl

@[simp] theorem stopPure_home (s : St) : (stopPure s).home = s.home := rfl

@[simp] theorem stopPure_currentBranch (s : St) : (stopPure s).currentBranch = "master" := rfl

@[simp] theorem stopPure_branches (s : St) : (stopPure s).branches = s.branches := rfl

@[simp] theorem stopPure_stashes (s : St) : (stopPure s).stashes = stashesAfterStop s := rfl

@[simp] theorem stopPure_workChanges (s : St) : (stopPure s).workChanges = none := rfl

@[simp] theorem stopPure_conflicted (s : St) : (stopPure s).conflicted = s.conflicted := rfl

@[simp] theorem stopPure_sessions (s : St) : (stopPure s).sessions = s.sessions := rfl

theorem drainStashes_ok_fields (env : Env) (t : Nat) (s s' : St)
    (h : drainStashes env t s = Except.ok s') :
    s'.stashes = s.stashes.filter (fun e => !(e.branch == branchName t))
      ∧ s'.workChanges = s.workChanges ∧ s'.workStaged = s.workStaged
      ∧ s'.currentBranch = s.currentBranch ∧ s'.branches = s.branches
      ∧ s'.sessions = s.sessions := by
  obtain ⟨tr, htr⟩ := drainStashes_spec env t s
  rw [htr] at h
  have hs := Except.ok.inj h
  subst hs
  simp

/-! The claims. -/

/-- Claim C10: shell(c, e) returns normally exactly when the command exit
code equals e, and then returns the pair (e, output); any other exit code,
including 0 when e is nonzero as in the stash-pop step of start which
declares expected code 1, raises a ShellError carrying the command text,
the actual exit code and the captured combined output. -/
theorem shell_returns_iff_expected (command : String) (code e : Nat) (out : String) :
    (code = e → shell command (code, out) e = Except.ok (e, out))
  ∧ (code ≠ e → shell command (code, out) e = Except.error ⟨command, code, out⟩) := by
  constructor
  · intro h; subst h; simp [shell]
  · intro h; simp [shell, h]

/-- Instantiation of the C10 theorem: a command exiting 0 where start
declared expected code 1 raises, and a command exiting with the declared
code returns the pair. -/
theorem shell_returns_iff_expected_witness :
    shell ((Cmd.stashPopReset 0).text) (0, "ok") 1
        = Except.error ⟨(Cmd.stashPopReset 0).text, 0, "ok"⟩
      ∧ shell "uname -s" (0, "Linux") 0 = Except.ok (0, "Linux") :=
  ⟨(shell_returns_iff_expected ((Cmd.stashPopReset 0).text) 0 1 "ok").2 (by decide),
   (shell_returns_iff_expected "uname -s" 0 0 "Linux").1 rfl⟩

/-- Claim C5: when the operator working directory is not the managed
workspace root, start reports the violation and exits with the distinct
code 1 before issuing any VCS or session-host command: the world state, and
with it the trace of issued commands, is returned exactly as it was. -/
theorem start_wrong_dir_fails_fast (env : Env) (t : Nat) (s : St)
    (h : s.cwd ≠ workspaceRoot s.home) :
    start env t s = Except.error (Abort.exited 1 "You need to run this in ~/Code !", s)
      ∧ processExit (start env t s) = 1 := by
  have hs : start env t s
      = Except.error (Abort.exited 1 "You need to run this in ~/Code !", s) := by
    simp [start, h]
  exact ⟨hs, by rw [hs]; rfl⟩

/-- Instantiation of the C5 theorem at a concrete state outside the
workspace root: start aborts with the message, exit code 1 and the state
(including the command trace) untouched. -/
theorem start_wrong_dir_fails_fast_witness :
    start envN 8 sBadDir
      = Except.error (Abort.exited 1 "You need to run this in ~/Code !", sBadDir) :=
  (start_wrong_dir_fails_fast envN 8 sBadDir (by decide)).1

/-- Claim C6: resume on the trunk branch master fails with the distinct
user-facing exit code 2 and its message, issuing no session-host call (the
one traced command is the branch query); on any other checked-out branch it
reattaches, with screen -r (reattach, not create), the session named
exactly by that branch. -/
theorem resume_trunk_vs_ticket (env : Env) (s : St) :
    (s.currentBranch = "master" →
       resume env s = Except.error
         (Abort.exited 2 "You were last seen on master, not a ticket branch!",
          pushCmdTrace s Cmd.branchQuery))
  ∧ (s.currentBranch ≠ "master" →
       resume env s = Except.ok
         (pushCmdTrace s Cmd.branchQuery, ⟨AttachMode.reattachOnly, s.currentBranch⟩)) := by
  constructor <;> intro h <;>
    simp [resume, shellC, runCmd, shell, pushCmdTrace, liftSh, h,
      Bind.bind, Except.bind, pure, Except.pure]

/-- Instantiation of the C6 theorem: resume on master exits 2 with no
session-host call; resume on the branch of ticket 4 reattaches its session. -/
theorem resume_trunk_vs_ticket_witness :
    resume envN sTrunk = Except.error
        (Abort.exited 2 "You were last seen on master, not a ticket branch!",
         pushCmdTrace sTrunk Cmd.branchQuery)
      ∧ resume envN sTicket = Except.ok
        (pushCmdTrace sTicket Cmd.branchQuery, ⟨AttachMode.reattachOnly, branchName 4⟩) :=
  ⟨(resume_trunk_vs_ticket envN sTrunk).1 rfl,
   (resume_trunk_vs_ticket envN sTicket).2 (by decide)⟩

/-- Claim C3 counterexample: over a fixed stash state holding exactly one
snapshot for ticket 7, the claim requires the yielded sequence to be the
one-element sequence of that ref, hence empty at position 1; but the
generator re-queries the unchanged state and yields the same newest ref
again at position 1 — the sequence is neither an exact enumeration of the
filtered set nor finite. -/
theorem stash_list_fixed_not_finite :
    stash_list_fixed 7 [⟨branchName 7, 1⟩] 1 = some (stashRef 0)
      ∧ stash_list_fixed 7 [⟨branchName 7, 1⟩] 1 ≠ none := by decide

/-- Claim C3 amended: stash_list re-queries the live stash state at every
step and takes the newest entry of that state whose origin branch matches
the ticket branch exactly.  Over a fixed state: if no entry matches, the
sequence is empty at every position and the generator step still returns
normally (not an error); if some entry matches, every position yields the
ref of the newest match (the first matching position of the newest-first
list, all younger entries being from other branches) — the sequence does
not advance to older matches and does not terminate while a match remains,
so termination of full iteration relies on the consumer dropping each
yielded snapshot, as kill does. -/
theorem stash_list_fixed_spec (t : Nat) (l : List StashEntry) :
    ((∀ e ∈ l, e.branch ≠ branchName t) → ∀ n, stash_list_fixed t l n = none)
  ∧ (∀ i, firstStashIdx t l = some i →
      (∃ e, l[i]? = some e ∧ e.branch = branchName t ∧
        (∀ j, j < i → ∀ e', l[j]? = some e' → e'.branch ≠ branchName t))
      ∧ ∀ n, stash_list_fixed t l n = some (stashRef i))
  ∧ (∀ env s, stash_list_next env t s
        = Except.ok (pushCmdTrace s (Cmd.stashQuery t), firstStashIdx t s.stashes)) := by
  refine ⟨?_, ?_, fun env s => stash_list_next_eq env t s⟩
  · intro h n
    simp [stash_list_fixed, (firstStashIdx_none_iff t l).2 h]
  · intro i hi
    exact ⟨firstStashIdx_spec t l i hi, fun n => by simp [stash_list_fixed, hi]⟩

/-- Instantiation of the C3 amended theorem: a ticket with no snapshot gets
the empty sequence; with two snapshots for ticket 7 on a fixed state, every
position (here position 5) yields the newest ref. -/
theorem stash_list_fixed_spec_witness :
    stash_list_fixed 3 [⟨branchName 7, 1⟩] 0 = none
      ∧ stash_list_fixed 7 [⟨branchName 7, 1⟩, ⟨branchName 7, 2⟩] 5 = some (stashRef 0) := by
  constructor
  · exact (stash_list_fixed_spec 3 [⟨branchName 7, 1⟩]).1 (by decide) 0
  · exact ((stash_list_fixed_spec 7 [⟨branchName 7, 1⟩, ⟨branchName 7, 2⟩]).2.1 0 (by decide)).2 5

/-- Claim C9: stop twice in a row.  If the first stop succeeded, the second
also runs all four steps (git add ., git stash — which finds nothing to
stash and is no error —, git checkout master, git svn rebase) and
completes, leaving the stash list unchanged (no duplicate entry), the
working copy clean and the branch master. -/
theorem stop_twice_no_error_no_duplicate (env : Env) (s s' : St)
    (h : stop env s = Except.ok s') :
    stop env s' = Except.ok (stopPure s')
      ∧ (stopPure s').stashes = s'.stashes
      ∧ (stopPure s').workChanges = none
      ∧ (stopPure s').currentBranch = "master"
      ∧ (stopPure s').trace = s'.trace
          ++ [Cmd.addAll.text, Cmd.stashPush.text, Cmd.checkoutMaster.text, Cmd.svnRebase.text] := by
  rw [stop_char] at h
  by_cases hr : env.svnRebaseCode = 0
  · rw [if_pos hr] at h
    have hs : stopPure s = s' := by simpa using h
    subst hs
    refine ⟨by rw [stop_char, if_pos hr], ?_, rfl, rfl, rfl⟩
    simp [stopPure, stashesAfterStop]
  · rw [if_neg hr] at h
    exact absurd h (by simp)

/-- Instantiation of the C9 theorem: after stopping work on ticket 6 with
uncommitted changes, a second stop succeeds and pushes no new stash entry. -/
theorem stop_twice_no_error_no_duplicate_witness :
    stop envN (stopPure sStopW) = Except.ok (stopPure (stopPure sStopW))
      ∧ (stopPure (stopPure sStopW)).stashes = (stopPure sStopW).stashes :=
  ⟨(stop_twice_no_error_no_duplicate envN sStopW (stopPure sStopW) (by decide)).1,
   (stop_twice_no_error_no_duplicate envN sStopW (stopPure sStopW) (by decide)).2.1⟩

/-- Claim C8 counterexample: git svn rebase fails with exit code 3; stop
aborts there with a ShellError carrying code 3, but the process exit status
is the fixed uncaught-exception status 1, not the failing command code 3
the claim requires to be propagated. -/
theorem exit_code_not_propagated :
    stop envR sC8 = Except.error
        (⟨Cmd.svnRebase.text, 3, "git svn rebase failed"⟩, stopPure sC8)
      ∧ processExit (liftSh (stop envR sC8)) = 1
      ∧ (1 : Nat) ≠ 3 := by decide

/-- Claim C8 amended: process exit status 0 on success; the distinct status
1 for start outside the workspace root; the distinct status 2 for resume on
trunk; and when an external command fails with an unexpected exit code the
operation aborts at that first failure with a ShellError carrying the
failing command text and that command exit code — but the process then
terminates with the uncaught-exception status 1 whatever that code was (the
dispatch in the source has no handler), so the failing code is surfaced in
the error, not propagated as the exit status, and it coincides with the
wrong-directory code. -/
theorem lifecycle_exit_codes (env : Env) (t : Nat) (s : St) :
    (∀ r, stop env s = Except.ok r → processExit (liftSh (stop env s)) = 0)
  ∧ (s.cwd ≠ workspaceRoot s.home → processExit (start env t s) = 1)
  ∧ (s.currentBranch = "master" → processExit (resume env s) = 2)
  ∧ (∀ e st, stop env s = Except.error (e, st) →
      processExit (liftSh (stop env s)) = 1
        ∧ e.command = Cmd.svnRebase.text ∧ e.returnCode = env.svnRebaseCode) := by
  refine ⟨?_, ?_, ?_, ?_⟩
  · intro r h; rw [h]; rfl
  · intro h; simp [start, h, processExit]
  · intro h
    simp [resume, shellC, runCmd, shell, pushCmdTrace, liftSh, h,
      Bind.bind, Except.bind, processExit]
  · intro e st h
    rw [stop_char] at h ⊢
    by_cases hr : env.svnRebaseCode = 0
    · rw [if_pos hr] at h; exact absurd h (by simp)
    · rw [if_neg hr] at h ⊢
      have he : (⟨Cmd.svnRebase.text, env.svnRebaseCode, "git svn rebase failed"⟩ : ShellError) = e := by
        simpa using congrArg (fun r => match r with
          | Except.error (er, _) => er
          | Except.ok _ => e) h
      refine ⟨rfl, ?_, ?_⟩ <;> rw [← he]

/-- Instantiation of the C8 amended theorem: 0 for a successful stop, 1 for
start outside the workspace, 2 for resume on trunk, and 1 (not 3) when git
svn rebase fails with code 3. -/
theorem lifecycle_exit_codes_witness :
    processExit (liftSh (stop envN sTrunk)) = 0
      ∧ processExit (start envN 3 sBadDir) = 1
      ∧ processExit (resume envN sTrunk) = 2
      ∧ processExit (liftSh (stop envR sC8)) = 1 :=
  ⟨(lifecycle_exit_codes envN 3 sTrunk).1 (stopPure sTrunk) (by decide),
   (lifecycle_exit_codes envN 3 sBadDir).2.1 (by decide),
   (lifecycle_exit_codes envN 3 sTrunk).2.2.1 rfl,
   ((lifecycle_exit_codes envR 3 sC8).2.2.2
      ⟨Cmd.svnRebase.text, 3, "git svn rebase failed"⟩ (stopPure sC8) (by decide)).1⟩

/-- Claim C7 counterexample: killing ticket 9 while no session named for it
is running: the screen quit command exits 1 and shell raises, so kill
aborts right there instead of continuing — the branch deletion and the
stash drain never run (the trace of the returned state ends at the quit
command).  The tolerated-not-fatal behaviour the claim states is false on
the code. -/
theorem kill_fatal_without_session :
    kill envN 9 sC7 = Except.error
      (⟨(Cmd.screenQuit 9).text, 1, "No screen session found."⟩,
       pushCmdTrace (stopPure sC7) (Cmd.screenQuit 9)) := by decide

/-- Claim C7 amended: kill tolerates neither failure.  If no session for
the ticket is running, the session-host termination fails (screen exits 1),
the failure propagates as a ShellError and kill aborts before the branch
deletion and the stash drain; if the session quit succeeds but the forced
branch deletion fails, that failure likewise propagates as a ShellError. -/
theorem kill_propagates_both_failures (env : Env) (t : Nat) (s : St)
    (hsvn : env.svnRebaseCode = 0) :
    (branchName t ∉ s.sessions →
       kill env t s = Except.error
         (⟨(Cmd.screenQuit t).text, 1, "No screen session found."⟩,
          pushCmdTrace (stopPure s) (Cmd.screenQuit t)))
  ∧ (branchName t ∈ s.sessions → branchName t ∉ s.branches →
       kill env t s = Except.error
         (⟨(Cmd.branchDelete t).text, 1, "error: branch not found or checked out"⟩,
          pushCmdTrace
            (pushCmdTrace {stopPure s with
               sessions := (stopPure s).sessions.erase (branchName t)} (Cmd.screenQuit t))
            (Cmd.branchDelete t))) := by
  constructor
  · intro hns
    simp [kill, stop_char, hsvn, shellC, runCmd, shell, hns,
      Bind.bind, Except.bind, pushCmdTrace]
  · intro hmem hnb
    simp [kill, stop_char, hsvn, shellC, runCmd, shell, hmem, hnb,
      Bind.bind, Except.bind, pushCmdTrace]

/-- Claim C1: the stash step of start(t).  When the stash step runs, the
stash list is the one stop() left behind (stashesAfterStop s).  If it holds
no snapshot made on the ticket branch, the step does nothing and start
still succeeds, handing over to screen with a clean working copy.  If it
holds at least one and applying the newest does not conflict, start
succeeds with the working copy holding exactly the change-set of the newest
such snapshot, left unstaged, and with that snapshot removed from the stash
list exactly once (eraseIdx at its position — neither duplicated nor
dropping any other entry); every younger stash entry is from another
branch, so the consumed one is the newest for the ticket. -/
theorem start_consumes_newest_snapshot (env : Env) (t : Nat) (s : St)
    (hcwd : s.cwd = workspaceRoot s.home) (hsvn : env.svnRebaseCode = 0) :
    (firstStashIdx t (stashesAfterStop s) = none →
      ∃ s4, start env t s = Except.ok (s4, ⟨AttachMode.createOrReattach, branchName t⟩)
        ∧ s4.stashes = stashesAfterStop s ∧ s4.workChanges = none)
  ∧ (∀ i e, firstStashIdx t (stashesAfterStop s) = some i →
      (stashesAfterStop s)[i]? = some e →
      env.popConflict e.changes = false →
      ∃ s4, start env t s = Except.ok (s4, ⟨AttachMode.createOrReattach, branchName t⟩)
        ∧ s4.stashes = (stashesAfterStop s).eraseIdx i
        ∧ s4.workChanges = some e.changes
        ∧ s4.workStaged = false
        ∧ e.branch = branchName t
        ∧ ∀ j, j < i → ∀ e', (stashesAfterStop s)[j]? = some e' → e'.branch ≠ branchName t) := by
  constructor
  · intro hnone
    refine ⟨pushCmdTrace (afterCheckout t s) (Cmd.stashQuery t), ?_, ?_, ?_⟩
    · simp [start, hcwd, stop_char, hsvn, liftSh, shellC, runCmd, shell, stash_list_next_eq,
        hnone, afterCheckout, Bind.bind, Except.bind, pure, Except.pure]
    · simp [afterCheckout]
    · simp [afterCheckout]
  · intro i e hi he hconf
    obtain ⟨e', he', hb', hj'⟩ := firstStashIdx_spec t (stashesAfterStop s) i hi
    have hee : e' = e := Option.some.inj (he'.symm.trans he)
    have hb : e.branch = branchName t := hee ▸ hb'
    refine ⟨pushCmdTrace {pushCmdTrace (afterCheckout t s) (Cmd.stashQuery t) with
        stashes := (stashesAfterStop s).eraseIdx i,
        workChanges := some e.changes, workStaged := false} (Cmd.stashPopReset i),
      ?_, ?_, ?_, ?_, hb, hj'⟩
    · simp [start, hcwd, stop_char, hsvn, liftSh, shellC, runCmd, shell, stash_list_next_eq,
        hi, he, hconf, afterCheckout, Bind.bind, Except.bind, pure, Except.pure]
    · simp
    · simp
    · simp

/-- Instantiation of the C1 theorem: restarting ticket 5 whose uncommitted
change-set 7 gets stashed by the stop inside start and popped back by the
stash step, leaving the stash list empty and change-set 7 unstaged in the
working copy. -/
theorem start_consumes_newest_snapshot_witness :
    (okOr (start envN 5 sC1) (sC1, ⟨AttachMode.createOrReattach, "none"⟩)).1.workChanges = some 7
      ∧ (okOr (start envN 5 sC1) (sC1, ⟨AttachMode.createOrReattach, "none"⟩)).1.stashes = []
      ∧ (okOr (start envN 5 sC1) (sC1, ⟨AttachMode.createOrReattach, "none"⟩)).1.workStaged = false := by
  obtain ⟨s4, heq, hst, hwc, hstg, _, _⟩ :=
    (start_consumes_newest_snapshot envN 5 sC1 rfl rfl).2 0 ⟨branchName 5, 7⟩
      (by decide) (by decide) rfl
  rw [heq]
  refine ⟨hwc, ?_, hstg⟩
  rw [okOr]
  rw [hst]
  decide

/-- Claim C2 (code bug): a conflicting stash pop during start is swallowed,
not surfaced.  With a snapshot for ticket 5 whose application conflicts,
git stash pop exits 1 and the && chain short-circuits, so the combined
command exits with exactly the code start declared as expected (1, the
success-path status of git reset HEAD .); shell returns normally and start
completes, handing over to screen (process exit status 0) with the conflict
markers in the working copy and the snapshot still on the stash list — it
does remain unconsumed, the one half of the claim the code satisfies, but
no error is surfaced, which the spec (sections 7b and 9) requires. -/
theorem start_swallows_conflicted_pop :
    processExit (start envC 5 sC2) = 0
      ∧ (okOr (start envC 5 sC2) (sC2, ⟨AttachMode.createOrReattach, ""⟩)).1.stashes
          = [⟨branchName 5, 7⟩]
      ∧ (okOr (start envC 5 sC2) (sC2, ⟨AttachMode.createOrReattach, ""⟩)).1.conflicted = true
      ∧ (okOr (start envC 5 sC2) (sC2, ⟨AttachMode.createOrReattach, ""⟩)).2
          = ⟨AttachMode.createOrReattach, branchName 5⟩ := by decide

/-- Claim C4: whenever kill(t) completes, every stash entry created on the
ticket branch has been dropped from the stash list: what remains is exactly
the non-matching part of the list as it stood after the initial stop(), the
stash_list sequence for the ticket is empty at every position, and the
drops were discards, not applies — the working copy is left clean exactly
as stop() left it. -/
theorem kill_drains_all_snapshots (env : Env) (t : Nat) (s s' : St)
    (h : kill env t s = Except.ok s') :
    (∀ e ∈ s'.stashes, e.branch ≠ branchName t)
      ∧ (∀ n, stash_list_fixed t s'.stashes n = none)
      ∧ s'.workChanges = none
      ∧ s'.stashes = (stashesAfterStop s).filter (fun e => !(e.branch == branchName t)) := by
  have hmain : s'.stashes = (stashesAfterStop s).filter (fun e => !(e.branch == branchName t))
      ∧ s'.workChanges = none := by
    by_cases hr : env.svnRebaseCode = 0
    · simp only [kill, Bind.bind, Except.bind] at h
      rw [stop_char, if_pos hr] at h
      by_cases hmem : branchName t ∈ s.sessions
      · simp only [shellC, runCmd, shell, stopPure_sessions, hmem, if_true, ite_true,
          pushCmdTrace] at h
        by_cases hbr : branchName t ∈ s.branches ∧ ¬branchName t = "master"
        · simp [hbr] at h
          have hfields := drainStashes_ok_fields env t _ s' h
          exact ⟨hfields.1, hfields.2.1⟩
        · simp [hbr] at h
      · simp [shellC, runCmd, shell, hmem, pushCmdTrace] at h
    · rw [kill, stop_char, if_neg hr] at h
      simp [Bind.bind, Except.bind] at h
  refine ⟨?_, ?_, hmain.2, hmain.1⟩
  · intro e hmem
    rw [hmain.1] at hmem
    have := List.of_mem_filter hmem
    simpa using this
  · intro n
    have hnone : firstStashIdx t s'.stashes = none := by
      rw [firstStashIdx_none_iff]
      intro e hmem
      rw [hmain.1] at hmem
      have := List.of_mem_filter hmem
      simpa using this
    simp [stash_list_fixed, hnone]

/-- Instantiation of the C4 theorem: killing ticket 5 with two of the three
stashed snapshots tagged for it drops exactly those two, and stash_list for
ticket 5 then yields nothing. -/
theorem kill_drains_all_snapshots_witness :
    (okOr (kill envN 5 sC4) sC4).stashes = [⟨branchName 3, 2⟩]
      ∧ stash_list_fixed 5 (okOr (kill envN 5 sC4) sC4).stashes 0 = none := by
  have h : kill envN 5 sC4 = Except.ok (okOr (kill envN 5 sC4) sC4) := by decide
  obtain ⟨_, hseq, _, hfil⟩ := kill_drains_all_snapshots envN 5 sC4 _ h
  refine ⟨?_, hseq 0⟩
  rw [hfil]
  decide

/-- Instantiation of the C7 amended theorem: with the session of ticket 4
running but no branch for it, kill propagates the branch-deletion failure. -/
theorem kill_propagates_both_failures_witness :
    kill envN 4 sTicketNoBranch = Except.error
      (⟨(Cmd.branchDelete 4).text, 1, "error: branch not found or checked out"⟩,
       pushCmdTrace
         (pushCmdTrace {stopPure sTicketNoBranch with
            sessions := (stopPure sTicketNoBranch).sessions.erase (branchName 4)}
            (Cmd.screenQuit 4))
         (Cmd.branchDelete 4)) :=
  (kill_propagates_both_failures envN 4 sTicketNoBranch rfl).2 (by decide) (by decide)

end Ticket
